import Mathlib

/-!
Verification of the telecom routing front-end (routing server + FLX engine).

The development shallowly embeds the C++ sources:
  * `include/protocol.hpp`  — framing codec `pack` / `unpack` (24-byte header,
    little-endian fields, opaque payload);
  * `include/ipc_mq.hpp`    — the POSIX message-queue adapter `PosixMq::send`
    (nonblocking mode, as both processes configure it);
  * `include/alr_store.hpp` — the seeded subscriber registry and routing policy;
  * `src/flx_engine.cpp`    — naive JSON field extraction and the engine's
    response construction;
  * `src/routing_server.cpp`— the event loop's per-line request path, the
    worker task's send-retry / bounded-wait / enqueue phases, the response
    dispatcher, and the pending table.

Bytes are modelled as `List Nat` (each entry a byte value; C++ `std::string`
and `std::vector<uint8_t>` are both byte sequences, so request lines, JSON
payloads and frames all live in the same type). Machine-integer truncation is
explicit: a `w`-byte little-endian store keeps `n % 256^w`.
-/

namespace TR

set_option maxRecDepth 16384

/-- Byte strings: C++ `std::string` / `std::vector<uint8_t>` as a list of
byte values. -/
abbrev Bytes := List Nat

/-- The bytes of an ASCII string literal. -/
def bs (s : String) : Bytes := s.data.map Char.toNat

/-- Little-endian encoding of `n` into `w` bytes, as `memcpy` of a
`w`-byte unsigned field stores it (truncation to `n % 256^w` is implicit). -/
def leN : Nat → Nat → Bytes
  | 0, _ => []
  | Nat.succ w, n => (n % 256) :: leN w (n / 256)

/-- Little-endian reassembly of a byte list, as `memcpy` into an unsigned
field reads it. -/
def leDec : Bytes → Nat
  | [] => 0
  | b :: r => b + 256 * leDec r

/-- Message type discriminant (`MsgType` in `protocol.hpp`). -/
inductive MsgType where
  | RouteReq
  | RouteResp
deriving DecidableEq, Repr

/-- Numeric value of the discriminant (`RouteReq = 1`, `RouteResp = 2`). -/
def MsgType.code : MsgType → Nat
  | .RouteReq => 1
  | .RouteResp => 2

/-- Header magic `0x54524D51` (ASCII `TRMQ` little-endian). -/
def MAGIC : Nat := 0x54524D51

/-- Size of the packed `MsgHdr` (`#pragma pack(1)`: 4+2+2+8+4+4 bytes). -/
def HDR_SIZE : Nat := 24

/-- Bus message-size cap: `MqConfig.msgsize` as both processes open the
queues (`8192` in `flx_engine.cpp` and `routing_server.cpp`). -/
def BUS_MSGSIZE : Nat := 8192

/-- The fixed frame header (`MsgHdr` in `protocol.hpp`); fields as the
unsigned integers the struct holds. -/
structure MsgHdr where
  magic : Nat
  version : Nat
  type : Nat
  corr_id : Nat
  payload_len : Nat
  reserved : Nat
deriving DecidableEq, Repr

/-- Framing `pack` (`protocol.hpp` lines 26-38): writes the 24-byte header
(magic, version 1, type, correlation id, payload length truncated to 32
bits, reserved 0) and concatenates the payload. The C++ function always
returns a vector; it has no failure path. -/
def pack (t : MsgType) (corr : Nat) (payload : Bytes) : Bytes :=
  leN 4 MAGIC ++ (leN 2 1 ++ (leN 2 t.code ++ (leN 8 corr ++
    (leN 4 payload.length ++ (leN 4 0 ++ payload)))))

/-- The header `memcpy` performs when unpacking: read the six little-endian
fields at their `#pragma pack(1)` offsets 0, 4, 6, 8, 16 and 20. -/
def readHdr (data : Bytes) : MsgHdr :=
  { magic := leDec (data.take 4)
    version := leDec ((data.drop 4).take 2)
    type := leDec ((data.drop 6).take 2)
    corr_id := leDec ((data.drop 8).take 8)
    payload_len := leDec ((data.drop 16).take 4)
    reserved := leDec ((data.drop 20).take 4) }

/-- Framing `unpack` (`protocol.hpp` lines 40-47): rejects a buffer shorter
than the header, a wrong magic, a version other than 1, or a header length
plus payload length that does not equal the buffer length; otherwise returns
the header and the payload bytes. -/
def unpack (data : Bytes) : Option (MsgHdr × Bytes) :=
  if data.length < HDR_SIZE then none
  else if (readHdr data).magic ≠ MAGIC then none
  else if (readHdr data).version ≠ 1 then none
  else if HDR_SIZE + (readHdr data).payload_len ≠ data.length then none
  else some (readHdr data, (data.drop 24).take (readHdr data).payload_len)

/-- Packing as the specification words it for claim C7 ("fails exactly when
the frame exceeds the bus cap"). This definition follows the spec's words,
not the source, and exists only to be compared with `pack`. -/
def packAsSpecified (t : MsgType) (corr : Nat) (payload : Bytes) : Option Bytes :=
  if HDR_SIZE + payload.length ≤ BUS_MSGSIZE then some (pack t corr payload) else none

/-- State of one POSIX message queue: the queued messages and the configured
bounds (`mq_maxmsg`, `mq_msgsize`). -/
structure MqState where
  msgs : List Bytes
  maxmsg : Nat
  msgsize : Nat
deriving DecidableEq, Repr

/-- Outcome of `PosixMq::send` (`ipc_mq.hpp` lines 60-70): `delivered`
(returns true), `wouldBlock` (EAGAIN in nonblocking mode, returns false), or
`tooLarge` (the guard `len > msgsize` throws before `mq_send` is invoked). -/
inductive SendOutcome where
  | delivered
  | wouldBlock
  | tooLarge
deriving DecidableEq, Repr

/-- `PosixMq::send` on an open nonblocking queue: the size guard throws
(leaving the queue untouched) when the frame exceeds `msgsize`; a full queue
reports would-block; otherwise the message is appended. -/
def mqSend (q : MqState) (data : Bytes) : SendOutcome × MqState :=
  if q.msgsize < data.length then (SendOutcome.tooLarge, q)
  else if q.maxmsg ≤ q.msgs.length then (SendOutcome.wouldBlock, q)
  else (SendOutcome.delivered, { q with msgs := q.msgs ++ [data] })

/-- A pending slot (`Pending` in `routing_server.cpp`): the one-shot latch
bit and the response payload. The mutex/condvar pair is synchronisation,
not state, and is not modelled. -/
structure PendingSlot where
  done : Bool
  resp : Bytes
deriving DecidableEq, Repr

/-- A connection (`Conn` in `routing_server.cpp`): read buffer, output
queue of complete response lines, and the write-interest flag. -/
structure Conn where
  inbuf : Bytes
  outq : List Bytes
  want_write : Bool
deriving DecidableEq, Repr

/-- A task handed to the worker pool: (connection fd, correlation id,
trimmed request line), as captured by the lambda at
`routing_server.cpp` line 246. -/
structure WorkerTask where
  fd : Nat
  corr : Nat
  req : Bytes
deriving DecidableEq, Repr

/-- Server-side shared state: the correlation counter (`next_corr_id`'s
atomic), the set of correlation ids present in the pending map, the heap of
slot objects (a slot outlives its map entry through the worker's
`shared_ptr`), the connection table, and the submitted worker tasks. -/
structure ServerState where
  nextCorr : Nat
  tableIds : List Nat
  slots : List (Nat × PendingSlot)
  conns : List (Nat × Conn)
  tasks : List WorkerTask
deriving DecidableEq, Repr

/-- `trim_newline` (`routing_server.cpp` lines 48-51): pop trailing `\n`
and `\r` bytes. -/
def trimNewline (s : Bytes) : Bytes :=
  (s.reverse.dropWhile (fun c => c = 10 || c = 13)).reverse

/-- Backpressure ceiling `MAX_PENDING` (`routing_server.cpp` line 24). -/
def MAX_PENDING : Nat := 100000

/-- The overload response line the event loop enqueues directly
(`routing_server.cpp` line 233), newline included. -/
def BUSY_LINE : Bytes := bs ("\x7b\"status\":\"BUSY\",\"reason\":\"overload\"\x7d\n")

/-- The payload the worker writes into a slot whose 500 ms wait expired
(`routing_server.cpp` line 267). -/
def TIMEOUT_JSON : Bytes := bs ("\x7b\"status\":\"TIMEOUT\",\"reason\":\"flx_no_response\"\x7d")

/-- The payload the worker writes into a slot after all send retries
reported would-block (`routing_server.cpp` line 258). -/
def MQFULL_JSON : Bytes := bs ("\x7b\"status\":\"ERROR\",\"reason\":\"mq_full\"\x7d")

/-- Lookup in the connection table (`conns.find(fd)`). -/
def lookupFd (conns : List (Nat × Conn)) (fd : Nat) : Option Conn :=
  match conns with
  | [] => none
  | (k, c) :: rest => if k = fd then some c else lookupFd rest fd

/-- Update the connection table entry for `fd` in place, if present. -/
def updateConn (conns : List (Nat × Conn)) (fd : Nat) (f : Conn → Conn) :
    List (Nat × Conn) :=
  match conns with
  | [] => []
  | (k, c) :: rest =>
      if k = fd then (k, f c) :: updateConn rest fd f
      else (k, c) :: updateConn rest fd f

/-- Enqueue a complete line on `fd`'s output queue and set write interest
(`outq.emplace_back` followed by `enable_write(fd, true)`). -/
def enqueueOn (conns : List (Nat × Conn)) (fd : Nat) (line : Bytes) :
    List (Nat × Conn) :=
  updateConn conns fd (fun c => { c with outq := c.outq ++ [line], want_write := true })

/-- A freshly constructed `Pending` slot (`std::make_shared<Pending>()`). -/
def freshSlot : PendingSlot := { done := false, resp := [] }

/-- The event loop's per-line request path (`routing_server.cpp` lines
221-285): trim the line; skip it if empty; if the pending table is over the
ceiling enqueue the BUSY line directly; otherwise draw a correlation id,
insert a fresh pending slot, and submit a worker task. -/
def handleLine (st : ServerState) (fd : Nat) (raw : Bytes) : ServerState :=
  let line := trimNewline raw
  if line = [] then st
  else if MAX_PENDING < st.tableIds.length then
    { st with conns := enqueueOn st.conns fd BUSY_LINE }
  else
    { st with
      nextCorr := st.nextCorr + 1
      tableIds := st.nextCorr :: st.tableIds
      slots := (st.nextCorr, freshSlot) :: st.slots
      tasks := st.tasks ++ [{ fd := fd, corr := st.nextCorr, req := line }] }

/-- The worker's bounded send-retry loop (`routing_server.cpp` lines
251-255): attempt `fuel` sends starting at attempt index `k`, stopping at
the first success; `attempt` is the oracle of per-attempt outcomes of
`mq_req.send` (true = delivered, false = would-block). -/
def sendLoop (attempt : Nat → Bool) : Nat → Nat → Bool
  | _, 0 => false
  | k, Nat.succ fuel => if attempt k then true else sendLoop attempt (k + 1) fuel

/-- The send-failure fill (`routing_server.cpp` lines 256-261): sets the
response and the latch unconditionally. -/
def mqFullFill (_p : PendingSlot) : PendingSlot :=
  { done := true, resp := MQFULL_JSON }

/-- The worker's send phase: 1000 attempts with backoff; if none succeeded,
fill the slot with the `mq_full` error. -/
def workerSendPhase (attempt : Nat → Bool) (p : PendingSlot) : PendingSlot :=
  if sendLoop attempt 0 1000 then p else mqFullFill p

/-- The worker's bounded wait (`routing_server.cpp` lines 263-270): when
`cv.wait_for` returns with the predicate still false after 500 ms — that is,
the slot is not yet done — fill the slot with the TIMEOUT payload; a slot
already done is left untouched. -/
def workerAwait (p : PendingSlot) : PendingSlot :=
  if p.done then p else { done := true, resp := TIMEOUT_JSON }

/-- The worker's reply enqueue (`routing_server.cpp` lines 272-280): append
the slot's response plus a newline to the originating connection's output
queue and set write interest; a closed (absent) connection is skipped. -/
def workerDeliver (conns : List (Nat × Conn)) (fd : Nat) (resp : Bytes) :
    List (Nat × Conn) :=
  enqueueOn conns fd (resp ++ [10])

/-- The dispatcher's completion fill (`routing_server.cpp` lines 137-142):
stores the payload and sets the latch unconditionally. -/
def dispatcherFill (payload : Bytes) (_p : PendingSlot) : PendingSlot :=
  { done := true, resp := payload }

/-- Update the slot object for `corr` in the slot heap. -/
def updateSlot (slots : List (Nat × PendingSlot)) (corr : Nat)
    (f : PendingSlot → PendingSlot) : List (Nat × PendingSlot) :=
  match slots with
  | [] => []
  | (k, p) :: rest =>
      if k = corr then (k, f p) :: updateSlot rest corr f
      else (k, p) :: updateSlot rest corr f

/-- One iteration of the response dispatcher on a received frame
(`routing_server.cpp` lines 126-143): unpack, require type RouteResp, then
atomically remove the matching pending-table entry and complete its slot;
an unmatched correlation id is dropped. -/
def dispatcherStep (st : ServerState) (frame : Bytes) : ServerState :=
  match unpack frame with
  | none => st
  | some (h, payload) =>
      if h.type = 2 then
        if h.corr_id ∈ st.tableIds then
          { st with
            tableIds := st.tableIds.erase h.corr_id
            slots := updateSlot st.slots h.corr_id (dispatcherFill payload) }
        else st
      else st

/-- The worker's timeout firing for correlation id `corr`
(`routing_server.cpp` lines 263-270): the slot object is filled through the
worker's `shared_ptr`; the pending table itself is not touched by this
path. -/
def workerTimeoutStep (st : ServerState) (corr : Nat) : ServerState :=
  { st with slots := updateSlot st.slots corr workerAwait }

/-- First index `≥` the carried index whose byte equals `t`
(helper for `std::string::find(char, pos)`). -/
def idxFromAux (t : Nat) : Bytes → Nat → Option Nat
  | [], _ => none
  | c :: cs, i => if c = t then some i else idxFromAux t cs (i + 1)

/-- `j.find(t, s)` for a single byte: the first absolute index `≥ s`
holding `t`. -/
def findFrom (t : Nat) (j : Bytes) (s : Nat) : Option Nat :=
  idxFromAux t (j.drop s) s

/-- Scan for the first occurrence of `pat`, carrying the current index
(helper for `std::string::find(string)`). -/
def findSubAux (pat : Bytes) : Bytes → Nat → Option Nat
  | [], i => if pat.isPrefixOf [] then some i else none
  | l@(_ :: rest), i =>
      if pat.isPrefixOf l then some i else findSubAux pat rest (i + 1)

/-- `j.find(pat)`: index of the first occurrence of `pat` in `j`. -/
def findSub (j pat : Bytes) : Option Nat := findSubAux pat j 0

/-- `json_get_string` (`flx_engine.cpp` lines 13-26): minimal substring
extraction — find `"key"`, then the next `:`, then the next two quotes, and
return what stands between them; any miss yields the empty string. -/
def jsonGet (j key : Bytes) : Bytes :=
  match findSub j (34 :: (key ++ [34])) with
  | none => []
  | some k =>
      match findFrom 58 j (k + (key.length + 2)) with
      | none => []
      | some colon =>
          match findFrom 34 j colon with
          | none => []
          | some q1 =>
              match findFrom 34 j (q1 + 1) with
              | none => []
              | some q2 => (j.drop (q1 + 1)).take (q2 - (q1 + 1))

/-- Decimal rendering, fuel-driven (`std::ostringstream <<` on an unsigned
integer); the fuel `n + 1` always suffices. -/
def decAux : Nat → Nat → Bytes → Bytes
  | 0, _, acc => acc
  | Nat.succ fuel, n, acc =>
      if n < 10 then (48 + n % 10) :: acc
      else decAux fuel (n / 10) ((48 + n % 10) :: acc)

/-- Decimal digits of `n` as ASCII bytes. -/
def natToBytes (n : Nat) : Bytes := decAux (n + 1) n []

/-- An ALR record (`alr_store.hpp`). -/
structure AlrRecord where
  imsi : Bytes
  serving_msc : Bytes
  serving_vlr : Bytes
  region : Bytes
deriving DecidableEq, Repr

/-- `AlrStore::lookup_msisdn` over the three seeded records
(`alr_store.hpp` lines 18-29). -/
def alr_lookup (m : Bytes) : Option AlrRecord :=
  if m = bs ("+14085551234") then
    some { imsi := bs ("310150123456789"), serving_msc := bs ("MSC_DALLAS_01")
           serving_vlr := bs ("VLR_DAL_01"), region := bs ("US-SOUTH") }
  else if m = bs ("+12125550123") then
    some { imsi := bs ("310150987654321"), serving_msc := bs ("MSC_NYC_01")
           serving_vlr := bs ("VLR_NYC_01"), region := bs ("US-EAST") }
  else if m = bs ("+442079460123") then
    some { imsi := bs ("234150111222333"), serving_msc := bs ("MSC_LON_01")
           serving_vlr := bs ("VLR_LON_01"), region := bs ("UK") }
  else none

/-- `route_policy` (`alr_store.hpp` lines 36-41). -/
def route_policy (rec : AlrRecord) : Bytes :=
  if rec.region = bs ("US-EAST") then bs ("ROUTE_GROUP_EAST")
  else if rec.region = bs ("US-SOUTH") then bs ("ROUTE_GROUP_SOUTH")
  else bs ("ROUTE_GROUP_INTL")

/-- Response-template segment `{"corr_id":`. -/
def segCorr : Bytes := bs ("\x7b\"corr_id\":")

/-- Response-template segment `,"op":"`. -/
def segOp : Bytes := bs (",\"op\":\"")

/-- Response-template segment `","msisdn":"`. -/
def segMsisdn : Bytes := bs ("\",\"msisdn\":\"")

/-- Response-template segment covering the whole NOT_FOUND branch up to the
latency digits: `","status":"NOT_FOUND","reason":"subscriber_not_in_alr","flx_latency_ms":`. -/
def segNotFound : Bytes :=
  bs ("\",\"status\":\"NOT_FOUND\",\"reason\":\"subscriber_not_in_alr\",\"flx_latency_ms\":")

/-- Response-template final byte `}`. -/
def segClose : Bytes := bs ("\x7d")

/-- OK-branch segment `","status":"OK","imsi":"`. -/
def segOkA : Bytes := bs ("\",\"status\":\"OK\",\"imsi\":\"")

/-- OK-branch segment `","serving_msc":"`. -/
def segOkB : Bytes := bs ("\",\"serving_msc\":\"")

/-- OK-branch segment `","serving_vlr":"`. -/
def segOkC : Bytes := bs ("\",\"serving_vlr\":\"")

/-- OK-branch segment `","route_group":"`. -/
def segOkD : Bytes := bs ("\",\"route_group\":\"")

/-- OK-branch segment `","flx_latency_ms":`. -/
def segOkE : Bytes := bs ("\",\"flx_latency_ms\":")

/-- The FLX engine's response-payload construction (`flx_engine.cpp` lines
66-93): extract `msisdn` and `op`, echo them together with the correlation
id, then either the NOT_FOUND pair or the record fields and routing
decision, and close with the observed latency `lat` (an input here: the
clock is external to the embedding). The concatenation order is exactly the
`ostringstream` emission order. -/
def buildResp (corr : Nat) (payload : Bytes) (lat : Nat) : Bytes :=
  let m := jsonGet payload (bs ("msisdn"))
  let opRaw := jsonGet payload (bs ("op"))
  let opv := if opRaw = [] then bs ("route") else opRaw
  let tail : Bytes :=
    match alr_lookup m with
    | none => segNotFound ++ (natToBytes lat ++ segClose)
    | some rec =>
        segOkA ++ (rec.imsi ++ (segOkB ++ (rec.serving_msc ++ (segOkC ++
          (rec.serving_vlr ++ (segOkD ++ (route_policy rec ++ (segOkE ++
            (natToBytes lat ++ segClose)))))))))
  segCorr ++ (natToBytes corr ++ (segOp ++ (opv ++ (segMsisdn ++ (m ++ tail)))))

/-- One iteration of the FLX engine loop on a received frame
(`flx_engine.cpp` lines 55-95): unpack, require type RouteReq (else the
frame is logged and dropped), build the response payload, and pack it as
RouteResp under the same correlation id. -/
def engineStep (buf : Bytes) (lat : Nat) : Option Bytes :=
  match unpack buf with
  | none => none
  | some (h, payload) =>
      if h.type = 1 then
        some (pack MsgType.RouteResp h.corr_id (buildResp h.corr_id payload lat))
      else none

/-- A payload one byte over the bus cap: 24 + 8169 = 8193 > 8192. -/
def bigPayload : Bytes := List.replicate 8169 48

/-! Helper lemmas about the byte-level codec. -/

theorem leN_length (w n : Nat) : (leN w n).length = w := by
  induction w generalizing n with
  | zero => rfl
  | succ w ih => simp [leN, ih]

theorem leDec_leN (w n : Nat) : leDec (leN w n) = n % 256 ^ w := by
  induction w generalizing n with
  | zero => simp [leN, leDec, Nat.mod_one]
  | succ w ih =>
      rw [leN, leDec, ih, pow_succ, mul_comm (256 ^ w) 256, Nat.mod_mul]

theorem drop_chunk {x y : Bytes} {k : Nat} (hk : x.length = k) :
    (x ++ y).drop k = y := by
  subst hk; exact List.drop_left x y

theorem take_chunk {x y : Bytes} {k : Nat} (hk : x.length = k) :
    (x ++ y).take k = x := by
  subst hk; exact List.take_left x y

theorem pack_length (t : MsgType) (c : Nat) (p : Bytes) :
    (pack t c p).length = HDR_SIZE + p.length := by
  simp [pack, leN_length, HDR_SIZE]
  omega

theorem MsgType.code_lt (t : MsgType) : t.code < 65536 := by
  cases t <;> simp [MsgType.code]

theorem readHdr_pack (t : MsgType) (c : Nat) (p : Bytes)
    (hc : c < 2 ^ 64) (hp : p.length < 2 ^ 32) :
    readHdr (pack t c p) =
      { magic := MAGIC, version := 1, type := t.code, corr_id := c,
        payload_len := p.length, reserved := 0 } := by
  have hs : pack t c p = leN 4 MAGIC ++ (leN 2 1 ++ (leN 2 t.code ++ (leN 8 c ++
      (leN 4 p.length ++ (leN 4 0 ++ p))))) := rfl
  have hs6 : pack t c p = (leN 4 MAGIC ++ leN 2 1) ++ (leN 2 t.code ++ (leN 8 c ++
      (leN 4 p.length ++ (leN 4 0 ++ p)))) := by rw [hs]; simp [List.append_assoc]
  have hs8 : pack t c p = ((leN 4 MAGIC ++ leN 2 1) ++ leN 2 t.code) ++ (leN 8 c ++
      (leN 4 p.length ++ (leN 4 0 ++ p))) := by rw [hs]; simp [List.append_assoc]
  have hs16 : pack t c p = (((leN 4 MAGIC ++ leN 2 1) ++ leN 2 t.code) ++ leN 8 c) ++
      (leN 4 p.length ++ (leN 4 0 ++ p)) := by rw [hs]; simp [List.append_assoc]
  have hs20 : pack t c p = ((((leN 4 MAGIC ++ leN 2 1) ++ leN 2 t.code) ++ leN 8 c) ++
      leN 4 p.length) ++ (leN 4 0 ++ p) := by rw [hs]; simp [List.append_assoc]
  have l6 : (leN 4 MAGIC ++ leN 2 1).length = 6 := by simp [leN_length]
  have l8 : ((leN 4 MAGIC ++ leN 2 1) ++ leN 2 t.code).length = 8 := by simp [leN_length]
  have l16 : (((leN 4 MAGIC ++ leN 2 1) ++ leN 2 t.code) ++ leN 8 c).length = 16 := by
    simp [leN_length]
  have l20 : ((((leN 4 MAGIC ++ leN 2 1) ++ leN 2 t.code) ++ leN 8 c) ++
      leN 4 p.length).length = 20 := by simp [leN_length]
  have e1 : (pack t c p).take 4 = leN 4 MAGIC := by
    rw [hs]; exact take_chunk (leN_length 4 MAGIC)
  have e2 : ((pack t c p).drop 4).take 2 = leN 2 1 := by
    rw [hs, drop_chunk (leN_length 4 MAGIC)]; exact take_chunk (leN_length 2 1)
  have e3 : ((pack t c p).drop 6).take 2 = leN 2 t.code := by
    rw [hs6, drop_chunk l6]; exact take_chunk (leN_length 2 t.code)
  have e4 : ((pack t c p).drop 8).take 8 = leN 8 c := by
    rw [hs8, drop_chunk l8]; exact take_chunk (leN_length 8 c)
  have e5 : ((pack t c p).drop 16).take 4 = leN 4 p.length := by
    rw [hs16, drop_chunk l16]; exact take_chunk (leN_length 4 p.length)
  have e6 : ((pack t c p).drop 20).take 4 = leN 4 0 := by
    rw [hs20, drop_chunk l20]; exact take_chunk (leN_length 4 0)
  simp only [readHdr, e1, e2, e3, e4, e5, e6, leDec_leN, MsgHdr.mk.injEq]
  refine ⟨Nat.mod_eq_of_lt (by norm_num [MAGIC]), by norm_num, ?_, ?_, ?_, by simp⟩
  · exact Nat.mod_eq_of_lt (by have := MsgType.code_lt t; omega)
  · exact Nat.mod_eq_of_lt (by omega)
  · exact Nat.mod_eq_of_lt (by omega)

theorem pack_drop24 (t : MsgType) (c : Nat) (p : Bytes) :
    (pack t c p).drop 24 = p := by
  have hs24 : pack t c p = (((((leN 4 MAGIC ++ leN 2 1) ++ leN 2 t.code) ++ leN 8 c) ++
      leN 4 p.length) ++ leN 4 0) ++ p := by simp [pack, List.append_assoc]
  have l24 : ((((((leN 4 MAGIC ++ leN 2 1) ++ leN 2 t.code) ++ leN 8 c) ++
      leN 4 p.length) ++ leN 4 0)).length = 24 := by simp [leN_length]
  rw [hs24, drop_chunk l24]

/-- C1: for every message type, every correlation id that fits in 64 bits,
and every payload whose size fits in 32 bits and whose 24-byte-header frame
does not exceed the bus cap, `unpack` inverts `pack`, returning the header
(magic `0x54524D51`, version 1, the type, the correlation id, the payload
length) and the payload unchanged. -/
theorem C1_unpack_pack_roundtrip (t : MsgType) (c : Nat) (p : Bytes)
    (hc : c < 2 ^ 64) (hp : p.length < 2 ^ 32)
    (hcap : HDR_SIZE + p.length ≤ BUS_MSGSIZE) :
    unpack (pack t c p) =
      some ({ magic := MAGIC, version := 1, type := t.code, corr_id := c,
              payload_len := p.length, reserved := 0 }, p) := by
  have hh := readHdr_pack t c p hc hp
  have hlen := pack_length t c p
  simp only [unpack, hh, hlen, HDR_SIZE]
  norm_num
  rw [pack_drop24]
  exact List.take_length p

/-- C1 witness: the round trip evaluated at a concrete frame. -/
theorem C1_unpack_pack_roundtrip_witness :
    unpack (pack MsgType.RouteReq 7 (bs ("hi"))) =
      some ({ magic := MAGIC, version := 1, type := MsgType.RouteReq.code,
              corr_id := 7, payload_len := (bs ("hi")).length, reserved := 0 },
            bs ("hi")) :=
  C1_unpack_pack_roundtrip MsgType.RouteReq 7 (bs ("hi"))
    (by norm_num) (by decide) (by decide)

/-- C7 counterexample: at a payload of 8169 bytes the frame is 8193 bytes,
over the 8192-byte bus cap, yet the source `pack` does not fail — it
produces the full frame — while the claim (formalised by `packAsSpecified`,
which follows the spec's words) demands failure. -/
theorem C7_counterexample :
    packAsSpecified MsgType.RouteReq 0 bigPayload = none ∧
    (pack MsgType.RouteReq 0 bigPayload).length = 8193 := by
  constructor
  · have h1 : bigPayload.length = 8169 := by
      simp only [bigPayload, List.length_replicate]
    have hc : ¬ (HDR_SIZE + bigPayload.length ≤ BUS_MSGSIZE) := by
      rw [h1]; simp only [HDR_SIZE, BUS_MSGSIZE]; omega
    unfold packAsSpecified
    exact if_neg hc
  · rw [pack_length]
    simp only [bigPayload, List.length_replicate, HDR_SIZE]

/-- C7 (amended): `pack` never fails — it always produces the 24-byte header
plus the payload. The oversize rejection lives in the bus adapter instead:
`PosixMq::send` throws its size error before invoking the OS send whenever
the frame exceeds the configured message size (leaving the queue untouched,
so the oversize frame never reaches the bus), and never raises that error
for a frame within the cap. -/
theorem C7_amended_pack_total_send_guard (t : MsgType) (c : Nat) (p : Bytes)
    (q : MqState) :
    (pack t c p).length = HDR_SIZE + p.length ∧
    (q.msgsize < HDR_SIZE + p.length →
      mqSend q (pack t c p) = (SendOutcome.tooLarge, q)) ∧
    (HDR_SIZE + p.length ≤ q.msgsize →
      (mqSend q (pack t c p)).1 ≠ SendOutcome.tooLarge) := by
  refine ⟨pack_length t c p, ?_, ?_⟩
  · intro h
    simp [mqSend, pack_length, h]
  · intro h
    by_cases hq : q.maxmsg ≤ q.msgs.length <;>
      simp [mqSend, pack_length, Nat.not_lt.mpr h, hq]

/-- C7 witness: the amended statement evaluated concretely — the oversize
frame is refused by the send guard with the queue unchanged. -/
theorem C7_amended_witness :
    mqSend { msgs := [], maxmsg := 2048, msgsize := 8192 }
        (pack MsgType.RouteReq 0 bigPayload) =
      (SendOutcome.tooLarge, { msgs := [], maxmsg := 2048, msgsize := 8192 }) :=
  (C7_amended_pack_total_send_guard MsgType.RouteReq 0 bigPayload
    { msgs := [], maxmsg := 2048, msgsize := 8192 }).2.1
    (by simp only [bigPayload, List.length_replicate, HDR_SIZE]; norm_num)

/-! Helper lemmas about the connection table. -/

theorem lookupFd_updateConn (conns : List (Nat × Conn)) (fd : Nat) (f : Conn → Conn) :
    lookupFd (updateConn conns fd f) fd = (lookupFd conns fd).map f := by
  induction conns with
  | nil => rfl
  | cons kc rest ih =>
      obtain ⟨k, c⟩ := kc
      by_cases h : k = fd <;> simp [lookupFd, updateConn, h, ih]

/-- C2: for a complete (non-empty after trimming) request line, when the
pending table is over the ceiling the event loop enqueues exactly the BUSY
line on that connection and sets write interest, touching neither the
correlation counter, the pending table, the slot heap nor the task queue;
otherwise it allocates the next correlation id, inserts a fresh pending
slot under it, and submits a worker task bound to (fd, id, line). -/
theorem C2_backpressure_request_path (st : ServerState) (fd : Nat) (raw : Bytes)
    (c : Conn) (hline : trimNewline raw ≠ [])
    (hconn : lookupFd st.conns fd = some c) :
    (MAX_PENDING < st.tableIds.length →
      handleLine st fd raw = { st with conns := enqueueOn st.conns fd BUSY_LINE } ∧
      lookupFd (handleLine st fd raw).conns fd =
        some { c with outq := c.outq ++ [BUSY_LINE], want_write := true }) ∧
    (st.tableIds.length ≤ MAX_PENDING →
      handleLine st fd raw =
        { st with
          nextCorr := st.nextCorr + 1
          tableIds := st.nextCorr :: st.tableIds
          slots := (st.nextCorr, freshSlot) :: st.slots
          tasks := st.tasks ++
            [{ fd := fd, corr := st.nextCorr, req := trimNewline raw }] }) := by
  constructor
  · intro h
    have he : handleLine st fd raw =
        { st with conns := enqueueOn st.conns fd BUSY_LINE } := by
      simp [handleLine, hline, h]
    refine ⟨he, ?_⟩
    rw [he]
    simp only [enqueueOn]
    rw [lookupFd_updateConn, hconn]
    rfl
  · intro h
    simp [handleLine, hline, Nat.not_lt.mpr h]

/-- C2 witness: the request path evaluated on a concrete state below the
ceiling — the line is accepted, correlation id 1 drawn, a slot inserted and
a task submitted. -/
theorem C2_backpressure_request_path_witness :
    handleLine
      { nextCorr := 1, tableIds := [], slots := [],
        conns := [(3, { inbuf := [], outq := [], want_write := false })], tasks := [] }
      3 (bs ("\x7b\"msisdn\":\"+1\"\x7d\n")) =
    { nextCorr := 2, tableIds := [1], slots := [(1, freshSlot)],
      conns := [(3, { inbuf := [], outq := [], want_write := false })],
      tasks := [{ fd := 3, corr := 1, req := bs ("\x7b\"msisdn\":\"+1\"\x7d") }] } := by
  have h := (C2_backpressure_request_path
    { nextCorr := 1, tableIds := [], slots := [],
      conns := [(3, { inbuf := [], outq := [], want_write := false })], tasks := [] }
    3 (bs ("\x7b\"msisdn\":\"+1\"\x7d\n"))
    { inbuf := [], outq := [], want_write := false }
    (by decide) (by decide)).2 (by decide)
  exact h.trans (by decide)

/-- C10: a received line that is empty after trimming trailing carriage
returns and newlines is silently skipped — no response is enqueued, no
correlation id drawn, no pending entry inserted, no task submitted: the
server state is unchanged. -/
theorem C10_empty_line_skipped (st : ServerState) (fd : Nat) (raw : Bytes)
    (h : trimNewline raw = []) : handleLine st fd raw = st := by
  simp [handleLine, h]

/-- C10 witness: a bare CRLF line leaves a concrete state untouched. -/
theorem C10_empty_line_skipped_witness :
    handleLine
      { nextCorr := 5, tableIds := [4], slots := [(4, freshSlot)],
        conns := [(9, { inbuf := [], outq := [], want_write := false })], tasks := [] }
      9 (bs ("\r\n")) =
      { nextCorr := 5, tableIds := [4], slots := [(4, freshSlot)],
        conns := [(9, { inbuf := [], outq := [], want_write := false })], tasks := [] } :=
  C10_empty_line_skipped _ 9 _ (by decide)

/-- C3: when the bounded 500 ms wait elapses with the slot still incomplete,
the worker completes it with the TIMEOUT payload, and the line it then
enqueues on the originating connection is exactly that payload followed by
a newline (write interest set). -/
theorem C3_timeout_fill_and_reply (p : PendingSlot) (conns : List (Nat × Conn))
    (fd : Nat) (c : Conn) (hp : p.done = false)
    (hc : lookupFd conns fd = some c) :
    workerAwait p = { done := true, resp := TIMEOUT_JSON } ∧
    lookupFd (workerDeliver conns fd (workerAwait p).resp) fd =
      some { c with outq := c.outq ++ [TIMEOUT_JSON ++ [10]], want_write := true } := by
  have ha : workerAwait p = { done := true, resp := TIMEOUT_JSON } := by
    simp [workerAwait, hp]
  refine ⟨ha, ?_⟩
  rw [ha]
  simp only [workerDeliver, enqueueOn]
  rw [lookupFd_updateConn, hc]
  rfl

/-- C3 witness: the timeout path evaluated on a fresh slot and a concrete
connection. -/
theorem C3_timeout_fill_and_reply_witness :
    workerAwait freshSlot = { done := true, resp := TIMEOUT_JSON } ∧
    lookupFd (workerDeliver [(7, { inbuf := [], outq := [], want_write := false })]
        7 (workerAwait freshSlot).resp) 7 =
      some { inbuf := [], outq := [TIMEOUT_JSON ++ [10]], want_write := true } := by
  have h := C3_timeout_fill_and_reply freshSlot
    [(7, { inbuf := [], outq := [], want_write := false })] 7
    { inbuf := [], outq := [], want_write := false } rfl (by decide)
  exact ⟨h.1, h.2.trans (by decide)⟩

/-- The send-retry loop reports success exactly when one of the `fuel`
attempts starting at index `k` succeeds. -/
theorem sendLoop_iff (attempt : Nat → Bool) (k fuel : Nat) :
    sendLoop attempt k fuel = true ↔ ∃ j, j < fuel ∧ attempt (k + j) = true := by
  induction fuel generalizing k with
  | zero => simp [sendLoop]
  | succ fuel ih =>
      rcases Bool.eq_false_or_eq_true (attempt k) with ha | ha
      · rw [sendLoop, if_pos ha]
        simp only [true_iff]
        exact ⟨0, Nat.succ_pos fuel, by rwa [Nat.add_zero]⟩
      · rw [sendLoop, if_neg (by simp [ha]), ih]
        constructor
        · rintro ⟨j, hj, hja⟩
          refine ⟨j + 1, by omega, ?_⟩
          have e : k + (j + 1) = k + 1 + j := by omega
          rwa [e]
        · rintro ⟨j, hj, hja⟩
          cases j with
          | zero =>
              rw [Nat.add_zero, ha] at hja
              exact absurd hja Bool.false_ne_true
          | succ j =>
              refine ⟨j, by omega, ?_⟩
              have e : k + 1 + j = k + (j + 1) := by omega
              rwa [e]

/-- C4: if every one of the 1000 send attempts reports would-block, the
worker completes the slot with the `mq_full` ERROR payload; if any attempt
succeeds, the slot is left alone — no ERROR completion occurs. -/
theorem C4_send_retry_exhaustion (attempt : Nat → Bool) (p : PendingSlot) :
    ((∀ j, j < 1000 → attempt j = false) →
      workerSendPhase attempt p = { done := true, resp := MQFULL_JSON }) ∧
    ((∃ j, j < 1000 ∧ attempt j = true) → workerSendPhase attempt p = p) := by
  constructor
  · intro h
    have hf : sendLoop attempt 0 1000 = false := by
      rw [Bool.eq_false_iff]
      intro ht
      obtain ⟨j, hj, ha⟩ := (sendLoop_iff attempt 0 1000).mp ht
      rw [Nat.zero_add] at ha
      exact absurd ha (by rw [h j hj]; exact Bool.false_ne_true)
    simp [workerSendPhase, hf, mqFullFill]
  · rintro ⟨j, hj, ha⟩
    have ht : sendLoop attempt 0 1000 = true :=
      (sendLoop_iff attempt 0 1000).mpr ⟨j, hj, by rwa [Nat.zero_add]⟩
    simp [workerSendPhase, ht]

/-- C4 witness: with every attempt blocking, the slot is filled with the
ERROR payload. -/
theorem C4_send_retry_exhaustion_witness :
    workerSendPhase (fun _ => false) freshSlot = { done := true, resp := MQFULL_JSON } :=
  (C4_send_retry_exhaustion (fun _ => false) freshSlot).1 (fun _ _ => rfl)

/-- C8 counterexample: a slot already Completed (latch set, payload "A") is
overwritten by the dispatcher's fill — the stored response changes to "B",
so a subsequent completion attempt does not leave the slot unchanged. -/
theorem C8_counterexample :
    dispatcherFill (bs ("B")) { done := true, resp := bs ("A") } =
      { done := true, resp := bs ("B") } ∧
    (dispatcherFill (bs ("B")) { done := true, resp := bs ("A") }).resp ≠ bs ("A") := by
  exact ⟨rfl, by decide⟩

/-- C8 (amended): only the worker's timeout fill is guarded by the latch —
a slot already done is returned unchanged by `workerAwait`. The
dispatcher's fill and the send-failure fill set the payload and the latch
unconditionally, so each of them overwrites even a completed slot. -/
theorem C8_amended_completion_discipline (p : PendingSlot) (payload : Bytes) :
    (p.done = true → workerAwait p = p) ∧
    dispatcherFill payload p = { done := true, resp := payload } ∧
    mqFullFill p = { done := true, resp := MQFULL_JSON } := by
  refine ⟨?_, rfl, rfl⟩
  intro h
  simp [workerAwait, h]

/-- C8 witness: the guarded fill evaluated on a completed slot. -/
theorem C8_amended_completion_discipline_witness :
    workerAwait { done := true, resp := bs ("A") } = { done := true, resp := bs ("A") } :=
  (C8_amended_completion_discipline { done := true, resp := bs ("A") } []).1 rfl

/-- C9 counterexample: the worker's timeout completes slot 5 (the slot heap
now holds the TIMEOUT payload) yet the pending table still contains
correlation id 5 — the timeout path does not remove the entry. -/
theorem C9_counterexample :
    5 ∈ (workerTimeoutStep
      { nextCorr := 6, tableIds := [5], slots := [(5, freshSlot)],
        conns := [], tasks := [] } 5).tableIds ∧
    (workerTimeoutStep
      { nextCorr := 6, tableIds := [5], slots := [(5, freshSlot)],
        conns := [], tasks := [] } 5).slots =
      [(5, { done := true, resp := TIMEOUT_JSON })] := by
  exact ⟨by decide, rfl⟩

/-- C9 (amended): a pending-table entry is removed exactly when a matching
RouteResp reaches the dispatcher; the worker-side timeout completes the
slot object but leaves the table entry in place (it is evicted only by a
later matching response). -/
theorem C9_amended_removal (st : ServerState) (frame : Bytes) (h : MsgHdr)
    (pl : Bytes) (corr : Nat) (hu : unpack frame = some (h, pl))
    (ht : h.type = 2) (hm : h.corr_id ∈ st.tableIds) :
    (dispatcherStep st frame).tableIds = st.tableIds.erase h.corr_id ∧
    (workerTimeoutStep st corr).tableIds = st.tableIds := by
  refine ⟨?_, rfl⟩
  simp [dispatcherStep, hu, ht, hm]

/-- C9 witness: a concrete RouteResp frame for correlation id 5 evicts the
matching table entry, emptying the table. -/
theorem C9_amended_removal_witness :
    (dispatcherStep
      { nextCorr := 6, tableIds := [5], slots := [(5, freshSlot)],
        conns := [], tasks := [] }
      (pack MsgType.RouteResp 5 (bs ("ok")))).tableIds = [] := by
  have h := (C9_amended_removal
    { nextCorr := 6, tableIds := [5], slots := [(5, freshSlot)],
      conns := [], tasks := [] }
    (pack MsgType.RouteResp 5 (bs ("ok")))
    { magic := MAGIC, version := 1, type := 2, corr_id := 5,
      payload_len := 2, reserved := 0 }
    (bs ("ok")) 0 (by decide) rfl (by decide)).1
  exact h.trans (by decide)

/-! Helper lemmas for substring reasoning over the engine's response
template: decompositions of infix/prefix facts over appends, and
quote-freeness of the naive JSON extraction and of decimal renderings. -/

theorem sub_app_left {p y : Bytes} (x : Bytes) (h : p <:+: y) : p <:+: x ++ y := by
  obtain ⟨s, t, hst⟩ := h
  exact ⟨x ++ s, t, by rw [← hst]; simp [List.append_assoc]⟩

theorem sub_app_right {p x : Bytes} (y : Bytes) (h : p <:+: x) : p <:+: x ++ y := by
  obtain ⟨s, t, hst⟩ := h
  exact ⟨s, t ++ y, by rw [← hst]; simp [List.append_assoc]⟩

theorem suf_mem {p v : Bytes} (h : p <:+ v) {x : Nat} (hx : x ∈ p) : x ∈ v := by
  obtain ⟨s, hs⟩ := h
  rw [← hs]
  exact List.mem_append_right s hx

theorem sub_append_cases {p x y : Bytes} (h : p <:+: x ++ y) :
    p <:+: x ∨ p <:+: y ∨
      ∃ p₁ p₂, p = p₁ ++ p₂ ∧ p₁ ≠ [] ∧ p₂ ≠ [] ∧ p₁ <:+ x ∧ p₂ <+: y := by
  obtain ⟨s, t, hst⟩ := h
  rw [List.append_assoc] at hst
  rcases List.append_eq_append_iff.mp hst with ⟨a, hx, hpt⟩ | ⟨c, _, hy⟩
  · rcases List.append_eq_append_iff.mp hpt with ⟨b, ha, _⟩ | ⟨c, hp, hy2⟩
    · left
      exact ⟨s, b, by rw [hx, ha, List.append_assoc]⟩
    · by_cases hae : a = []
      · subst hae
        right; left
        simp only [List.nil_append] at hp
        exact ⟨[], t, by rw [hy2, hp]; simp⟩
      · by_cases hce : c = []
        · subst hce
          left
          rw [List.append_nil] at hp
          exact ⟨s, [], by rw [hx, hp]; simp⟩
        · right; right
          exact ⟨a, c, hp, hae, hce, ⟨s, hx.symm⟩, ⟨t, hy2.symm⟩⟩
  · right; left
    exact ⟨c, t, by rw [hy, List.append_assoc]⟩

theorem pre_append_cases {p x y : Bytes} (h : p <+: x ++ y) :
    p <+: x ∨ ∃ q, p = x ++ q ∧ q <+: y := by
  obtain ⟨t, ht⟩ := h
  rcases List.append_eq_append_iff.mp ht with ⟨a, hx, _⟩ | ⟨c, hp, hy⟩
  · exact Or.inl ⟨a, hx.symm⟩
  · exact Or.inr ⟨c, hp, ⟨t, hy.symm⟩⟩

theorem pre_kill {p2 seg rest : Bytes} (hpre : p2 <+: seg ++ rest)
    (hnot : ¬ p2 <+: seg) (hlen : p2.length < seg.length) : False := by
  rcases pre_append_cases hpre with hq | ⟨q, hq, _⟩
  · exact hnot hq
  · have := congrArg List.length hq
    rw [List.length_append] at this
    omega

theorem split4 {a b c d : Nat} {p1 p2 : Bytes} (h : [a, b, c, d] = p1 ++ p2)
    (h1 : p1 ≠ []) (h2 : p2 ≠ []) :
    (p1 = [a] ∧ p2 = [b, c, d]) ∨ (p1 = [a, b] ∧ p2 = [c, d]) ∨
      (p1 = [a, b, c] ∧ p2 = [d]) := by
  rcases p1 with _ | ⟨x1, _ | ⟨x2, _ | ⟨x3, _ | ⟨x4, rest⟩⟩⟩⟩ <;> simp_all

theorem idxFromAux_bound {t : Nat} {l : Bytes} {i m : Nat}
    (h : idxFromAux t l i = some m) :
    i ≤ m ∧ ∀ x ∈ l.take (m - i), x ≠ t := by
  induction l generalizing i with
  | nil => simp [idxFromAux] at h
  | cons c cs ih =>
      rw [idxFromAux] at h
      by_cases hc : c = t
      · rw [if_pos hc] at h
        injection h with h
        subst h
        exact ⟨Nat.le_refl i, by simp⟩
      · rw [if_neg hc] at h
        obtain ⟨hle, hx⟩ := ih h
        refine ⟨by omega, ?_⟩
        intro x hx'
        have e : m - i = (m - (i + 1)) + 1 := by omega
        rw [e, List.take_succ_cons] at hx'
        rcases List.mem_cons.mp hx' with rfl | h''
        · exact hc
        · exact hx x h''

theorem jsonGet_no_quote (j key : Bytes) : 34 ∉ jsonGet j key := by
  unfold jsonGet
  cases h1 : findSub j (34 :: (key ++ [34])) with
  | none => simp [h1]
  | some k =>
      cases h2 : findFrom 58 j (k + (key.length + 2)) with
      | none => simp [h1, h2]
      | some colon =>
          cases h3 : findFrom 34 j colon with
          | none => simp [h1, h2, h3]
          | some q1 =>
              cases h4 : findFrom 34 j (q1 + 1) with
              | none => simp [h1, h2, h3, h4]
              | some q2 =>
                  simp only [h1, h2, h3, h4]
                  intro hmem
                  rw [findFrom] at h4
                  obtain ⟨_, hno⟩ := idxFromAux_bound h4
                  exact hno 34 hmem rfl

theorem decAux_mem {f n : Nat} {acc : Bytes} {x : Nat} (h : x ∈ decAux f n acc) :
    x ∈ acc ∨ (48 ≤ x ∧ x ≤ 57) := by
  induction f generalizing n acc with
  | zero => exact Or.inl h
  | succ f ih =>
      rw [decAux] at h
      have h10 : n % 10 < 10 := Nat.mod_lt _ (by omega)
      by_cases hn : n < 10
      · rw [if_pos hn] at h
        rcases List.mem_cons.mp h with rfl | h'
        · right; omega
        · exact Or.inl h'
      · rw [if_neg hn] at h
        rcases ih h with h' | h'
        · rcases List.mem_cons.mp h' with rfl | h''
          · right; omega
          · exact Or.inl h''
        · exact Or.inr h'

theorem natToBytes_no_quote (n : Nat) : 34 ∉ natToBytes n := by
  intro h
  rcases decAux_mem h with h' | h'
  · exact absurd h' (List.not_mem_nil 34)
  · omega

theorem buildResp_notFound (corr : Nat) (payload : Bytes) (lat : Nat)
    (hm : alr_lookup (jsonGet payload (bs ("msisdn"))) = none) :
    buildResp corr payload lat =
      segCorr ++ (natToBytes corr ++ (segOp ++
        ((if jsonGet payload (bs ("op")) = [] then bs ("route")
          else jsonGet payload (bs ("op"))) ++
          (segMsisdn ++ (jsonGet payload (bs ("msisdn")) ++
            (segNotFound ++ (natToBytes lat ++ segClose))))))) := by
  simp only [buildResp, hm]

theorem buildResp_found (corr : Nat) (payload : Bytes) (lat : Nat)
    (rec : AlrRecord)
    (hm : alr_lookup (jsonGet payload (bs ("msisdn"))) = some rec) :
    buildResp corr payload lat =
      segCorr ++ (natToBytes corr ++ (segOp ++
        ((if jsonGet payload (bs ("op")) = [] then bs ("route")
          else jsonGet payload (bs ("op"))) ++
          (segMsisdn ++ (jsonGet payload (bs ("msisdn")) ++
            (segOkA ++ (rec.imsi ++ (segOkB ++ (rec.serving_msc ++
              (segOkC ++ (rec.serving_vlr ++ (segOkD ++ (route_policy rec ++
                (segOkE ++ (natToBytes lat ++ segClose))))))))))))))) := by
  simp only [buildResp, hm]

/-- The byte pattern `si(quote)(colon)` (the tail of the JSON key occurrence
`"KEYnoPat_imsi":`) cannot occur in the engine's NOT_FOUND response template, for
any quote-free hole contents. -/
theorem noPat_imsi (corrS opv msv latS : Bytes)
    (h1 : 34 ∉ corrS) (h2 : 34 ∉ opv) (h3 : 34 ∉ msv) (h4 : 34 ∉ latS) :
    ¬ [115, 105, 34, 58] <:+:
      (segCorr ++ (corrS ++ (segOp ++ (opv ++ (segMsisdn ++ (msv ++
        (segNotFound ++ (latS ++ segClose)))))))) := by
  intro h
  rcases sub_append_cases h with hin | h | ⟨p1, p2, hsp, hn1, hn2, hsuf, hpre⟩
  · exact absurd hin (by decide)
  · rcases sub_append_cases h with hin | h | ⟨p1, p2, hsp, hn1, hn2, hsuf, hpre⟩
    · exact h1 (hin.subset (by decide))
    · rcases sub_append_cases h with hin | h | ⟨p1, p2, hsp, hn1, hn2, hsuf, hpre⟩
      · exact absurd hin (by decide)
      · rcases sub_append_cases h with hin | h | ⟨p1, p2, hsp, hn1, hn2, hsuf, hpre⟩
        · exact h2 (hin.subset (by decide))
        · rcases sub_append_cases h with hin | h | ⟨p1, p2, hsp, hn1, hn2, hsuf, hpre⟩
          · exact absurd hin (by decide)
          · rcases sub_append_cases h with hin | h | ⟨p1, p2, hsp, hn1, hn2, hsuf, hpre⟩
            · exact h3 (hin.subset (by decide))
            · rcases sub_append_cases h with hin | h | ⟨p1, p2, hsp, hn1, hn2, hsuf, hpre⟩
              · exact absurd hin (by decide)
              · rcases sub_append_cases h with hin | hin | ⟨p1, p2, hsp, hn1, hn2, hsuf, hpre⟩
                · exact h4 (hin.subset (by decide))
                · exact absurd hin (by decide)
                · rcases split4 hsp hn1 hn2 with ⟨e1, e2⟩ | ⟨e1, e2⟩ | ⟨e1, e2⟩
                  · rw [e2] at hpre; exact absurd hpre (by decide)
                  · rw [e2] at hpre; exact absurd hpre (by decide)
                  · rw [e1] at hsuf; exact h4 (suf_mem hsuf (by decide))
              · rcases split4 hsp hn1 hn2 with ⟨e1, _⟩ | ⟨e1, _⟩ | ⟨e1, _⟩ <;>
                  rw [e1] at hsuf <;> exact absurd hsuf (by decide)
            · rcases split4 hsp hn1 hn2 with ⟨e1, e2⟩ | ⟨e1, e2⟩ | ⟨e1, e2⟩
              · rw [e2] at hpre; exact pre_kill hpre (by decide) (by decide)
              · rw [e2] at hpre; exact pre_kill hpre (by decide) (by decide)
              · rw [e1] at hsuf; exact h3 (suf_mem hsuf (by decide))
          · rcases split4 hsp hn1 hn2 with ⟨e1, _⟩ | ⟨e1, _⟩ | ⟨e1, _⟩ <;>
              rw [e1] at hsuf <;> exact absurd hsuf (by decide)
        · rcases split4 hsp hn1 hn2 with ⟨e1, e2⟩ | ⟨e1, e2⟩ | ⟨e1, e2⟩
          · rw [e2] at hpre; exact pre_kill hpre (by decide) (by decide)
          · rw [e2] at hpre; exact pre_kill hpre (by decide) (by decide)
          · rw [e1] at hsuf; exact h2 (suf_mem hsuf (by decide))
      · rcases split4 hsp hn1 hn2 with ⟨e1, _⟩ | ⟨e1, _⟩ | ⟨e1, _⟩ <;>
          rw [e1] at hsuf <;> exact absurd hsuf (by decide)
    · rcases split4 hsp hn1 hn2 with ⟨e1, e2⟩ | ⟨e1, e2⟩ | ⟨e1, e2⟩
      · rw [e2] at hpre; exact pre_kill hpre (by decide) (by decide)
      · rw [e2] at hpre; exact pre_kill hpre (by decide) (by decide)
      · rw [e1] at hsuf; exact h1 (suf_mem hsuf (by decide))
  · rcases split4 hsp hn1 hn2 with ⟨e1, _⟩ | ⟨e1, _⟩ | ⟨e1, _⟩ <;>
      rw [e1] at hsuf <;> exact absurd hsuf (by decide)

/-- The byte pattern `sc(quote)(colon)` (the tail of the JSON key occurrence
`"KEYnoPat_msc":`) cannot occur in the engine's NOT_FOUND response template, for
any quote-free hole contents. -/
theorem noPat_msc (corrS opv msv latS : Bytes)
    (h1 : 34 ∉ corrS) (h2 : 34 ∉ opv) (h3 : 34 ∉ msv) (h4 : 34 ∉ latS) :
    ¬ [115, 99, 34, 58] <:+:
      (segCorr ++ (corrS ++ (segOp ++ (opv ++ (segMsisdn ++ (msv ++
        (segNotFound ++ (latS ++ segClose)))))))) := by
  intro h
  rcases sub_append_cases h with hin | h | ⟨p1, p2, hsp, hn1, hn2, hsuf, hpre⟩
  · exact absurd hin (by decide)
  · rcases sub_append_cases h with hin | h | ⟨p1, p2, hsp, hn1, hn2, hsuf, hpre⟩
    · exact h1 (hin.subset (by decide))
    · rcases sub_append_cases h with hin | h | ⟨p1, p2, hsp, hn1, hn2, hsuf, hpre⟩
      · exact absurd hin (by decide)
      · rcases sub_append_cases h with hin | h | ⟨p1, p2, hsp, hn1, hn2, hsuf, hpre⟩
        · exact h2 (hin.subset (by decide))
        · rcases sub_append_cases h with hin | h | ⟨p1, p2, hsp, hn1, hn2, hsuf, hpre⟩
          · exact absurd hin (by decide)
          · rcases sub_append_cases h with hin | h | ⟨p1, p2, hsp, hn1, hn2, hsuf, hpre⟩
            · exact h3 (hin.subset (by decide))
            · rcases sub_append_cases h with hin | h | ⟨p1, p2, hsp, hn1, hn2, hsuf, hpre⟩
              · exact absurd hin (by decide)
              · rcases sub_append_cases h with hin | hin | ⟨p1, p2, hsp, hn1, hn2, hsuf, hpre⟩
                · exact h4 (hin.subset (by decide))
                · exact absurd hin (by decide)
                · rcases split4 hsp hn1 hn2 with ⟨e1, e2⟩ | ⟨e1, e2⟩ | ⟨e1, e2⟩
                  · rw [e2] at hpre; exact absurd hpre (by decide)
                  · rw [e2] at hpre; exact absurd hpre (by decide)
                  · rw [e1] at hsuf; exact h4 (suf_mem hsuf (by decide))
              · rcases split4 hsp hn1 hn2 with ⟨e1, _⟩ | ⟨e1, _⟩ | ⟨e1, _⟩ <;>
                  rw [e1] at hsuf <;> exact absurd hsuf (by decide)
            · rcases split4 hsp hn1 hn2 with ⟨e1, e2⟩ | ⟨e1, e2⟩ | ⟨e1, e2⟩
              · rw [e2] at hpre; exact pre_kill hpre (by decide) (by decide)
              · rw [e2] at hpre; exact pre_kill hpre (by decide) (by decide)
              · rw [e1] at hsuf; exact h3 (suf_mem hsuf (by decide))
          · rcases split4 hsp hn1 hn2 with ⟨e1, _⟩ | ⟨e1, _⟩ | ⟨e1, _⟩ <;>
              rw [e1] at hsuf <;> exact absurd hsuf (by decide)
        · rcases split4 hsp hn1 hn2 with ⟨e1, e2⟩ | ⟨e1, e2⟩ | ⟨e1, e2⟩
          · rw [e2] at hpre; exact pre_kill hpre (by decide) (by decide)
          · rw [e2] at hpre; exact pre_kill hpre (by decide) (by decide)
          · rw [e1] at hsuf; exact h2 (suf_mem hsuf (by decide))
      · rcases split4 hsp hn1 hn2 with ⟨e1, _⟩ | ⟨e1, _⟩ | ⟨e1, _⟩ <;>
          rw [e1] at hsuf <;> exact absurd hsuf (by decide)
    · rcases split4 hsp hn1 hn2 with ⟨e1, e2⟩ | ⟨e1, e2⟩ | ⟨e1, e2⟩
      · rw [e2] at hpre; exact pre_kill hpre (by decide) (by decide)
      · rw [e2] at hpre; exact pre_kill hpre (by decide) (by decide)
      · rw [e1] at hsuf; exact h1 (suf_mem hsuf (by decide))
  · rcases split4 hsp hn1 hn2 with ⟨e1, _⟩ | ⟨e1, _⟩ | ⟨e1, _⟩ <;>
      rw [e1] at hsuf <;> exact absurd hsuf (by decide)

/-- The byte pattern `lr(quote)(colon)` (the tail of the JSON key occurrence
`"KEYnoPat_vlr":`) cannot occur in the engine's NOT_FOUND response template, for
any quote-free hole contents. -/
theorem noPat_vlr (corrS opv msv latS : Bytes)
    (h1 : 34 ∉ corrS) (h2 : 34 ∉ opv) (h3 : 34 ∉ msv) (h4 : 34 ∉ latS) :
    ¬ [108, 114, 34, 58] <:+:
      (segCorr ++ (corrS ++ (segOp ++ (opv ++ (segMsisdn ++ (msv ++
        (segNotFound ++ (latS ++ segClose)))))))) := by
  intro h
  rcases sub_append_cases h with hin | h | ⟨p1, p2, hsp, hn1, hn2, hsuf, hpre⟩
  · exact absurd hin (by decide)
  · rcases sub_append_cases h with hin | h | ⟨p1, p2, hsp, hn1, hn2, hsuf, hpre⟩
    · exact h1 (hin.subset (by decide))
    · rcases sub_append_cases h with hin | h | ⟨p1, p2, hsp, hn1, hn2, hsuf, hpre⟩
      · exact absurd hin (by decide)
      · rcases sub_append_cases h with hin | h | ⟨p1, p2, hsp, hn1, hn2, hsuf, hpre⟩
        · exact h2 (hin.subset (by decide))
        · rcases sub_append_cases h with hin | h | ⟨p1, p2, hsp, hn1, hn2, hsuf, hpre⟩
          · exact absurd hin (by decide)
          · rcases sub_append_cases h with hin | h | ⟨p1, p2, hsp, hn1, hn2, hsuf, hpre⟩
            · exact h3 (hin.subset (by decide))
            · rcases sub_append_cases h with hin | h | ⟨p1, p2, hsp, hn1, hn2, hsuf, hpre⟩
              · exact absurd hin (by decide)
              · rcases sub_append_cases h with hin | hin | ⟨p1, p2, hsp, hn1, hn2, hsuf, hpre⟩
                · exact h4 (hin.subset (by decide))
                · exact absurd hin (by decide)
                · rcases split4 hsp hn1 hn2 with ⟨e1, e2⟩ | ⟨e1, e2⟩ | ⟨e1, e2⟩
                  · rw [e2] at hpre; exact absurd hpre (by decide)
                  · rw [e2] at hpre; exact absurd hpre (by decide)
                  · rw [e1] at hsuf; exact h4 (suf_mem hsuf (by decide))
              · rcases split4 hsp hn1 hn2 with ⟨e1, _⟩ | ⟨e1, _⟩ | ⟨e1, _⟩ <;>
                  rw [e1] at hsuf <;> exact absurd hsuf (by decide)
            · rcases split4 hsp hn1 hn2 with ⟨e1, e2⟩ | ⟨e1, e2⟩ | ⟨e1, e2⟩
              · rw [e2] at hpre; exact pre_kill hpre (by decide) (by decide)
              · rw [e2] at hpre; exact pre_kill hpre (by decide) (by decide)
              · rw [e1] at hsuf; exact h3 (suf_mem hsuf (by decide))
          · rcases split4 hsp hn1 hn2 with ⟨e1, _⟩ | ⟨e1, _⟩ | ⟨e1, _⟩ <;>
              rw [e1] at hsuf <;> exact absurd hsuf (by decide)
        · rcases split4 hsp hn1 hn2 with ⟨e1, e2⟩ | ⟨e1, e2⟩ | ⟨e1, e2⟩
          · rw [e2] at hpre; exact pre_kill hpre (by decide) (by decide)
          · rw [e2] at hpre; exact pre_kill hpre (by decide) (by decide)
          · rw [e1] at hsuf; exact h2 (suf_mem hsuf (by decide))
      · rcases split4 hsp hn1 hn2 with ⟨e1, _⟩ | ⟨e1, _⟩ | ⟨e1, _⟩ <;>
          rw [e1] at hsuf <;> exact absurd hsuf (by decide)
    · rcases split4 hsp hn1 hn2 with ⟨e1, e2⟩ | ⟨e1, e2⟩ | ⟨e1, e2⟩
      · rw [e2] at hpre; exact pre_kill hpre (by decide) (by decide)
      · rw [e2] at hpre; exact pre_kill hpre (by decide) (by decide)
      · rw [e1] at hsuf; exact h1 (suf_mem hsuf (by decide))
  · rcases split4 hsp hn1 hn2 with ⟨e1, _⟩ | ⟨e1, _⟩ | ⟨e1, _⟩ <;>
      rw [e1] at hsuf <;> exact absurd hsuf (by decide)

/-- The byte pattern `up(quote)(colon)` (the tail of the JSON key occurrence
`"KEYnoPat_group":`) cannot occur in the engine's NOT_FOUND response template, for
any quote-free hole contents. -/
theorem noPat_group (corrS opv msv latS : Bytes)
    (h1 : 34 ∉ corrS) (h2 : 34 ∉ opv) (h3 : 34 ∉ msv) (h4 : 34 ∉ latS) :
    ¬ [117, 112, 34, 58] <:+:
      (segCorr ++ (corrS ++ (segOp ++ (opv ++ (segMsisdn ++ (msv ++
        (segNotFound ++ (latS ++ segClose)))))))) := by
  intro h
  rcases sub_append_cases h with hin | h | ⟨p1, p2, hsp, hn1, hn2, hsuf, hpre⟩
  · exact absurd hin (by decide)
  · rcases sub_append_cases h with hin | h | ⟨p1, p2, hsp, hn1, hn2, hsuf, hpre⟩
    · exact h1 (hin.subset (by decide))
    · rcases sub_append_cases h with hin | h | ⟨p1, p2, hsp, hn1, hn2, hsuf, hpre⟩
      · exact absurd hin (by decide)
      · rcases sub_append_cases h with hin | h | ⟨p1, p2, hsp, hn1, hn2, hsuf, hpre⟩
        · exact h2 (hin.subset (by decide))
        · rcases sub_append_cases h with hin | h | ⟨p1, p2, hsp, hn1, hn2, hsuf, hpre⟩
          · exact absurd hin (by decide)
          · rcases sub_append_cases h with hin | h | ⟨p1, p2, hsp, hn1, hn2, hsuf, hpre⟩
            · exact h3 (hin.subset (by decide))
            · rcases sub_append_cases h with hin | h | ⟨p1, p2, hsp, hn1, hn2, hsuf, hpre⟩
              · exact absurd hin (by decide)
              · rcases sub_append_cases h with hin | hin | ⟨p1, p2, hsp, hn1, hn2, hsuf, hpre⟩
                · exact h4 (hin.subset (by decide))
                · exact absurd hin (by decide)
                · rcases split4 hsp hn1 hn2 with ⟨e1, e2⟩ | ⟨e1, e2⟩ | ⟨e1, e2⟩
                  · rw [e2] at hpre; exact absurd hpre (by decide)
                  · rw [e2] at hpre; exact absurd hpre (by decide)
                  · rw [e1] at hsuf; exact h4 (suf_mem hsuf (by decide))
              · rcases split4 hsp hn1 hn2 with ⟨e1, _⟩ | ⟨e1, _⟩ | ⟨e1, _⟩ <;>
                  rw [e1] at hsuf <;> exact absurd hsuf (by decide)
            · rcases split4 hsp hn1 hn2 with ⟨e1, e2⟩ | ⟨e1, e2⟩ | ⟨e1, e2⟩
              · rw [e2] at hpre; exact pre_kill hpre (by decide) (by decide)
              · rw [e2] at hpre; exact pre_kill hpre (by decide) (by decide)
              · rw [e1] at hsuf; exact h3 (suf_mem hsuf (by decide))
          · rcases split4 hsp hn1 hn2 with ⟨e1, _⟩ | ⟨e1, _⟩ | ⟨e1, _⟩ <;>
              rw [e1] at hsuf <;> exact absurd hsuf (by decide)
        · rcases split4 hsp hn1 hn2 with ⟨e1, e2⟩ | ⟨e1, e2⟩ | ⟨e1, e2⟩
          · rw [e2] at hpre; exact pre_kill hpre (by decide) (by decide)
          · rw [e2] at hpre; exact pre_kill hpre (by decide) (by decide)
          · rw [e1] at hsuf; exact h2 (suf_mem hsuf (by decide))
      · rcases split4 hsp hn1 hn2 with ⟨e1, _⟩ | ⟨e1, _⟩ | ⟨e1, _⟩ <;>
          rw [e1] at hsuf <;> exact absurd hsuf (by decide)
    · rcases split4 hsp hn1 hn2 with ⟨e1, e2⟩ | ⟨e1, e2⟩ | ⟨e1, e2⟩
      · rw [e2] at hpre; exact pre_kill hpre (by decide) (by decide)
      · rw [e2] at hpre; exact pre_kill hpre (by decide) (by decide)
      · rw [e1] at hsuf; exact h1 (suf_mem hsuf (by decide))
  · rcases split4 hsp hn1 hn2 with ⟨e1, _⟩ | ⟨e1, _⟩ | ⟨e1, _⟩ <;>
      rw [e1] at hsuf <;> exact absurd hsuf (by decide)

/-- C5: whenever the extracted msisdn is absent (empty) or not a seeded
registry key — that is, the ALR lookup misses — the engine's response
payload contains the `"status":"NOT_FOUND"` and
`"reason":"subscriber_not_in_alr"` fields and contains no `imsi`,
`serving_msc`, `serving_vlr` or `route_group` field (no such key occurrence
`"k":` appears anywhere in the payload). -/
theorem C5_not_found_response (corr : Nat) (payload : Bytes) (lat : Nat)
    (hm : alr_lookup (jsonGet payload (bs ("msisdn"))) = none) :
    (bs ("\"status\":\"NOT_FOUND\"")) <:+: buildResp corr payload lat ∧
    (bs ("\"reason\":\"subscriber_not_in_alr\"")) <:+: buildResp corr payload lat ∧
    (¬ (bs ("\"imsi\":")) <:+: buildResp corr payload lat) ∧
    (¬ (bs ("\"serving_msc\":")) <:+: buildResp corr payload lat) ∧
    (¬ (bs ("\"serving_vlr\":")) <:+: buildResp corr payload lat) ∧
    (¬ (bs ("\"route_group\":")) <:+: buildResp corr payload lat) := by
  have hq1 : 34 ∉ natToBytes corr := natToBytes_no_quote corr
  have hq4 : 34 ∉ natToBytes lat := natToBytes_no_quote lat
  have hq2 : 34 ∉ (if jsonGet payload (bs ("op")) = [] then bs ("route")
      else jsonGet payload (bs ("op"))) := by
    by_cases hc : jsonGet payload (bs ("op")) = []
    · rw [if_pos hc]; decide
    · rw [if_neg hc]; exact jsonGet_no_quote payload (bs ("op"))
  have hq3 : 34 ∉ jsonGet payload (bs ("msisdn")) :=
    jsonGet_no_quote payload (bs ("msisdn"))
  rw [buildResp_notFound corr payload lat hm]
  refine ⟨?_, ?_, ?_, ?_, ?_, ?_⟩
  · exact sub_app_left _ (sub_app_left _ (sub_app_left _ (sub_app_left _
      (sub_app_left _ (sub_app_left _ (sub_app_right _ (by decide)))))))
  · exact sub_app_left _ (sub_app_left _ (sub_app_left _ (sub_app_left _
      (sub_app_left _ (sub_app_left _ (sub_app_right _ (by decide)))))))
  · intro hcon
    exact noPat_imsi (natToBytes corr) _ _ (natToBytes lat) hq1 hq2 hq3 hq4
      (List.IsInfix.trans (by decide) hcon)
  · intro hcon
    exact noPat_msc (natToBytes corr) _ _ (natToBytes lat) hq1 hq2 hq3 hq4
      (List.IsInfix.trans (by decide) hcon)
  · intro hcon
    exact noPat_vlr (natToBytes corr) _ _ (natToBytes lat) hq1 hq2 hq3 hq4
      (List.IsInfix.trans (by decide) hcon)
  · intro hcon
    exact noPat_group (natToBytes corr) _ _ (natToBytes lat) hq1 hq2 hq3 hq4
      (List.IsInfix.trans (by decide) hcon)

/-- C5 witness: the unknown-subscriber payload of the spec's scenario,
evaluated concretely. -/
theorem C5_not_found_response_witness :
    (bs ("\"status\":\"NOT_FOUND\"")) <:+:
      buildResp 1 (bs ("\x7b\"msisdn\":\"+19999999999\"\x7d")) 0 ∧
    (bs ("\"reason\":\"subscriber_not_in_alr\"")) <:+:
      buildResp 1 (bs ("\x7b\"msisdn\":\"+19999999999\"\x7d")) 0 ∧
    (¬ (bs ("\"imsi\":")) <:+:
      buildResp 1 (bs ("\x7b\"msisdn\":\"+19999999999\"\x7d")) 0) ∧
    (¬ (bs ("\"serving_msc\":")) <:+:
      buildResp 1 (bs ("\x7b\"msisdn\":\"+19999999999\"\x7d")) 0) ∧
    (¬ (bs ("\"serving_vlr\":")) <:+:
      buildResp 1 (bs ("\x7b\"msisdn\":\"+19999999999\"\x7d")) 0) ∧
    (¬ (bs ("\"route_group\":")) <:+:
      buildResp 1 (bs ("\x7b\"msisdn\":\"+19999999999\"\x7d")) 0) :=
  C5_not_found_response 1 (bs ("\x7b\"msisdn\":\"+19999999999\"\x7d")) 0 (by decide)

/-- C6: for a RouteReq frame whose extracted msisdn hits the registry, the
engine's reply is packed as RouteResp under the request's correlation id,
and the response payload carries a `corr_id` field holding exactly that id
and a `msisdn` field holding exactly the extracted request msisdn. -/
theorem C6_ok_response_echo (buf : Bytes) (lat : Nat) (h : MsgHdr)
    (pl : Bytes) (rec : AlrRecord) (hu : unpack buf = some (h, pl))
    (ht : h.type = 1)
    (hm : alr_lookup (jsonGet pl (bs ("msisdn"))) = some rec) :
    engineStep buf lat =
      some (pack MsgType.RouteResp h.corr_id (buildResp h.corr_id pl lat)) ∧
    (bs ("\"corr_id\":") ++ (natToBytes h.corr_id ++ bs (","))) <:+:
      buildResp h.corr_id pl lat ∧
    (bs ("\"msisdn\":\"") ++ (jsonGet pl (bs ("msisdn")) ++ bs ("\""))) <:+:
      buildResp h.corr_id pl lat := by
  refine ⟨by simp [engineStep, hu, ht], ?_, ?_⟩
  · rw [buildResp_found _ _ _ _ hm]
    have e1 : segCorr = bs ("\x7b") ++ bs ("\"corr_id\":") := by decide
    have e2 : segOp = bs (",") ++ bs ("\"op\":\"") := by decide
    rw [e1, e2]
    exact ⟨bs ("\x7b"),
      bs ("\"op\":\"") ++
        ((if jsonGet pl (bs ("op")) = [] then bs ("route")
          else jsonGet pl (bs ("op"))) ++
          (segMsisdn ++ (jsonGet pl (bs ("msisdn")) ++
            (segOkA ++ (rec.imsi ++ (segOkB ++ (rec.serving_msc ++
              (segOkC ++ (rec.serving_vlr ++ (segOkD ++ (route_policy rec ++
                (segOkE ++ (natToBytes lat ++ segClose))))))))))))),
      by simp [List.append_assoc]⟩
  · rw [buildResp_found _ _ _ _ hm]
    have e3 : segMsisdn = bs ("\",") ++ bs ("\"msisdn\":\"") := by decide
    have e4 : segOkA = bs ("\"") ++ bs (",\"status\":\"OK\",\"imsi\":\"") := by decide
    rw [e3, e4]
    exact ⟨segCorr ++ (natToBytes h.corr_id ++ (segOp ++
        ((if jsonGet pl (bs ("op")) = [] then bs ("route")
          else jsonGet pl (bs ("op"))) ++ bs ("\",")))),
      bs (",\"status\":\"OK\",\"imsi\":\"") ++ (rec.imsi ++ (segOkB ++
        (rec.serving_msc ++ (segOkC ++ (rec.serving_vlr ++ (segOkD ++
          (route_policy rec ++ (segOkE ++ (natToBytes lat ++ segClose))))))))),
      by simp [List.append_assoc]⟩

/-- C6 witness: the known-subscriber scenario evaluated on a concrete
RouteReq frame with correlation id 9. -/
theorem C6_ok_response_echo_witness :
    engineStep (pack MsgType.RouteReq 9 (bs ("\x7b\"msisdn\":\"+14085551234\"\x7d"))) 0 =
      some (pack MsgType.RouteResp 9
        (buildResp 9 (bs ("\x7b\"msisdn\":\"+14085551234\"\x7d")) 0)) ∧
    (bs ("\"corr_id\":") ++ (natToBytes 9 ++ bs (","))) <:+:
      buildResp 9 (bs ("\x7b\"msisdn\":\"+14085551234\"\x7d")) 0 ∧
    (bs ("\"msisdn\":\"") ++
        (jsonGet (bs ("\x7b\"msisdn\":\"+14085551234\"\x7d")) (bs ("msisdn")) ++
          bs ("\""))) <:+:
      buildResp 9 (bs ("\x7b\"msisdn\":\"+14085551234\"\x7d")) 0 :=
  C6_ok_response_echo
    (pack MsgType.RouteReq 9 (bs ("\x7b\"msisdn\":\"+14085551234\"\x7d"))) 0
    { magic := MAGIC, version := 1, type := 1, corr_id := 9,
      payload_len := 25, reserved := 0 }
    (bs ("\x7b\"msisdn\":\"+14085551234\"\x7d"))
    { imsi := bs ("310150123456789"), serving_msc := bs ("MSC_DALLAS_01")
      serving_vlr := bs ("VLR_DAL_01"), region := bs ("US-SOUTH") }
    (by decide) rfl (by decide)

end TR
